import Mathlib

/-!
Verification development for the timer widget's core logic.

The JavaScript sources are shallowly embedded here:
* `timer-engine.js` (class `TimerEngine`) : state machine and progression loop
* `countdown-timer.js` (class `CountdownTimer`) : duration validation, warnings
* the `Stopwatch` class : lap recording
* `time-formatter.js` (class `TimeFormatter`) : formatting and parsing

Modelling conventions:
* Millisecond quantities are modelled as integers (`ℤ`); every value the
  claims quantify over is an exact integer in the source as well.
* JavaScript strings are modelled as `List Char`.
* Event emission is modelled by returning the list of emitted events next to
  the successor state; event payloads are elided (no claim inspects them).
* Operations that `throw` are modelled with `Except String`; an exception
  leaves the already-performed mutations in place, exactly as in the source.
* `requestAnimationFrame` scheduling is modelled by the boolean field
  `animationFrameId`: `true` iff a progression callback is pending.
* The per-listener `try/catch` around callbacks and the formatter's string
  cache are pure plumbing and are elided.
-/

namespace Timer

/-- Timer mode, `'countdown' | 'stopwatch'` in the source.  `setMode` throws
on any other string, so the enumeration captures exactly the valid modes. -/
inductive Mode
  | countdown
  | stopwatch
deriving DecidableEq, Repr

/-- The event names emitted by `TimerEngine` (payloads elided). -/
inductive Event
  | tick
  | complete
  | start
  | pause
  | resume
  | reset
  | modeChanged
  | targetTimeChanged
  | error
  | maxDurationReached
  | destroyed
deriving DecidableEq, Repr

/-- `TIMER_CONSTANTS.MAX_DURATION` from `types.js`: 24 hours in ms. -/
def MAX_DURATION : ℤ := 24 * 60 * 60 * 1000

/-- `TIMER_CONSTANTS.UPDATE_INTERVAL` from `types.js`. -/
def UPDATE_INTERVAL : ℤ := 100

/-- The `TimerEngine` state: the `this.state` record together with the
engine-level fields `lastUpdateTime` and `animationFrameId` that the
progression loop uses. -/
structure EngineState where
  mode : Mode
  isRunning : Bool
  isPaused : Bool
  currentTime : ℤ
  targetTime : ℤ
  startTime : ℤ
  lastUpdateTime : ℤ
  animationFrameId : Bool
deriving DecidableEq, Repr

namespace TimerEngine

/-- The state built by the `TimerEngine` constructor. -/
def initState : EngineState :=
  { mode := Mode.countdown
    isRunning := false
    isPaused := false
    currentTime := 0
    targetTime := 5 * 60 * 1000
    startTime := 0
    lastUpdateTime := 0
    animationFrameId := false }

/-- `TimerEngine.pause`. -/
def pause (s : EngineState) : EngineState × List Event :=
  if !s.isRunning || s.isPaused then (s, [])
  else
    ({ s with isPaused := true, isRunning := false, animationFrameId := false },
     [Event.pause])

/-- `TimerEngine.reset`.  In the source `currentTime` is restored to
`this.state.targetTime || 0`, which equals `targetTime` for every integer
(`0 || 0` evaluates to `0`). -/
def reset (s : EngineState) : EngineState × List Event :=
  ({ s with
      isRunning := false
      isPaused := false
      animationFrameId := false
      currentTime := if s.mode = Mode.countdown then s.targetTime else 0 },
   [Event.reset])

/-- `TimerEngine.setMode`: pauses if running, switches the mode, resets,
then emits `modeChanged`. -/
def setMode (m : Mode) (s : EngineState) : EngineState × List Event :=
  let p := if s.isRunning then pause s else (s, [])
  let r := reset { p.1 with mode := m }
  (r.1, p.2 ++ r.2 ++ [Event.modeChanged])

/-- `TimerEngine.setTargetTime`: validates the argument, stores it, and in
countdown mode also overwrites `currentTime`. -/
def setTargetTime (ms : ℤ) (s : EngineState) :
    Except String (EngineState × List Event) :=
  if ms < 0 then Except.error "Target time cannot be negative"
  else if ms > MAX_DURATION then
    Except.error "Target time cannot exceed 86400000ms (24 hours)"
  else
    Except.ok
      ({ s with
          targetTime := ms
          currentTime := if s.mode = Mode.countdown then ms else s.currentTime },
       [Event.targetTimeChanged])

/-- `TimerEngine.start`: no-op when running, recoverable `error` event for a
zero countdown, otherwise starts the progression loop at wall-clock `now`. -/
def start (now : ℤ) (s : EngineState) : EngineState × List Event :=
  if s.isRunning then (s, [])
  else if s.mode = Mode.countdown ∧ s.currentTime ≤ 0 then (s, [Event.error])
  else
    ({ s with
        isRunning := true
        isPaused := false
        startTime := now
        lastUpdateTime := now
        animationFrameId := true },
     [Event.start])

/-- `TimerEngine.resume`: re-anchors `lastUpdateTime` to now. -/
def resume (now : ℤ) (s : EngineState) : EngineState × List Event :=
  if !s.isPaused then (s, [])
  else
    ({ s with
        isRunning := true
        isPaused := false
        lastUpdateTime := now
        animationFrameId := true },
     [Event.resume])

/-- `TimerEngine.update`, the progression callback, called with the current
wall-clock reading `now`. -/
def update (now : ℤ) (s : EngineState) : EngineState × List Event :=
  if !s.isRunning || s.isPaused then (s, [])
  else
    let deltaTime := now - s.lastUpdateTime
    if UPDATE_INTERVAL ≤ deltaTime then
      if s.mode = Mode.countdown then
        let ct := max 0 (s.currentTime - deltaTime)
        if ct ≤ 0 then
          ({ s with currentTime := 0, isRunning := false, animationFrameId := false },
           [Event.complete])
        else
          ({ s with currentTime := ct, lastUpdateTime := now, animationFrameId := true },
           [Event.tick])
      else
        let ct := s.currentTime + deltaTime
        if MAX_DURATION ≤ ct then
          let p := pause { s with currentTime := MAX_DURATION }
          (p.1, p.2 ++ [Event.maxDurationReached])
        else
          ({ s with currentTime := ct, lastUpdateTime := now, animationFrameId := true },
           [Event.tick])
    else
      ({ s with animationFrameId := true }, [])

/-- `TimerEngine.destroy`. -/
def destroy (s : EngineState) : EngineState × List Event :=
  ({ s with isRunning := false, isPaused := false, animationFrameId := false },
   [Event.destroyed])

end TimerEngine

/-- A public `TimerEngine` operation, with the wall-clock reading passed to
the operations that read `performance.now()`. -/
inductive Op
  | setMode (m : Mode)
  | setTargetTime (ms : ℤ)
  | start (now : ℤ)
  | pause
  | resume (now : ℤ)
  | reset
  | update (now : ℤ)
  | destroy
deriving DecidableEq, Repr

/-- Apply one operation.  A thrown validation error leaves the state as the
source leaves it (unchanged, since `setTargetTime` validates before
mutating). -/
def applyOp : Op → EngineState → EngineState × List Event
  | Op.setMode m, s => TimerEngine.setMode m s
  | Op.setTargetTime ms, s =>
      match TimerEngine.setTargetTime ms s with
      | Except.ok r => r
      | Except.error _ => (s, [])
  | Op.start now, s => TimerEngine.start now s
  | Op.pause, s => TimerEngine.pause s
  | Op.resume now, s => TimerEngine.resume now s
  | Op.reset, s => TimerEngine.reset s
  | Op.update now, s => TimerEngine.update now s
  | Op.destroy, s => TimerEngine.destroy s

/-- Run a sequence of operations, returning the final state. -/
def runOps : List Op → EngineState → EngineState
  | [], s => s
  | op :: rest, s => runOps rest (applyOp op s).1

/-- Run a sequence of progression callbacks, collecting all emitted events. -/
def runUpdates : List ℤ → EngineState → EngineState × List Event
  | [], s => (s, [])
  | now :: rest, s =>
      let r := TimerEngine.update now s
      let r2 := runUpdates rest r.1
      (r2.1, r.2 ++ r2.2)

/-- `this.state.isRunning` and `this.state.isPaused` are not both set. -/
def flagsOk (s : EngineState) : Prop := ¬(s.isRunning = true ∧ s.isPaused = true)

/-- Number of `complete` events in an emitted event list. -/
def completes (evs : List Event) : ℕ := evs.count Event.complete

/-- Invariant of a countdown run that has emitted `n` completion events so
far: either still running with time left and nothing completed, or stopped
at exactly zero with the loop cancelled and one completion emitted. -/
def CountdownRunInv (s : EngineState) (n : ℕ) : Prop :=
  s.mode = Mode.countdown ∧ s.isPaused = false ∧
  ((s.isRunning = true ∧ 0 < s.currentTime ∧ n = 0) ∨
   (s.isRunning = false ∧ s.currentTime = 0 ∧ s.animationFrameId = false ∧ n = 1))

/-- Decimal digits of a natural number, most significant first, mirroring
JavaScript `Number.prototype.toString` for non-negative integers.  The first
argument is structural-recursion fuel; `natToChars` supplies enough. -/
def natToCharsAux : ℕ → ℕ → List Char
  | 0, _ => []
  | fuel + 1, n =>
      if n < 10 then [Nat.digitChar n]
      else natToCharsAux fuel (n / 10) ++ [Nat.digitChar (n % 10)]

/-- `n.toString()` for a natural number. -/
def natToChars (n : ℕ) : List Char := natToCharsAux (n + 1) n

/-- `String.prototype.padStart(len, c)`. -/
def padStart (len : ℕ) (c : Char) (l : List Char) : List Char :=
  List.replicate (len - l.length) c ++ l

/-- `n.toString().padStart(2, '0')` for a natural number. -/
def pad2 (n : ℕ) : List Char := padStart 2 '0' (natToChars n)

/-- `i.toString()` for an integer (a leading minus sign when negative). -/
def intToChars (i : ℤ) : List Char :=
  if i < 0 then '-' :: natToChars i.natAbs else natToChars i.toNat

/-- `i.toString().padStart(2, '0')` for an integer. -/
def pad2Int (i : ℤ) : List Char := padStart 2 '0' (intToChars i)

namespace TimeFormatter

/-- `TimeFormatter.formatTime` with the default options
(`showMilliseconds = false`, `forceHours = false`, `compact = false`,
`showLeadingZero = true`).  Negative input returns `"00:00"`; the
`Math.floor(milliseconds)` of the source is the identity on integers. -/
def formatTime (ms : ℤ) : List Char :=
  if ms < 0 then ['0', '0', ':', '0', '0']
  else
    let totalSeconds := ms.toNat / 1000
    let hours := totalSeconds / 3600
    let minutes := (totalSeconds % 3600) / 60
    let seconds := totalSeconds % 60
    if 0 < hours then
      pad2 hours ++ ':' :: pad2 minutes ++ ':' :: pad2 seconds
    else
      pad2 minutes ++ ':' :: pad2 seconds

/-- The whitespace characters trimmed and skipped by the source's
`trim()` and the `\s*` parts of its regular expressions: the full
ECMAScript set — TAB, LF, VT, FF, CR, SP, NBSP, the Ogham space mark,
the Zs range U+2000 to U+200A, the line and paragraph separators,
the narrow no-break space, the medium mathematical space, the
ideographic space, and the zero-width no-break space. -/
def isWhitespace (c : Char) : Bool :=
  c.toNat == 0x09 || c.toNat == 0x0A || c.toNat == 0x0B || c.toNat == 0x0C ||
  c.toNat == 0x0D || c.toNat == 0x20 || c.toNat == 0xA0 || c.toNat == 0x1680 ||
  (0x2000 ≤ c.toNat && c.toNat ≤ 0x200A) ||
  c.toNat == 0x2028 || c.toNat == 0x2029 || c.toNat == 0x202F ||
  c.toNat == 0x205F || c.toNat == 0x3000 || c.toNat == 0xFEFF

/-- `String.prototype.trim`. -/
def trim (l : List Char) : List Char :=
  ((l.dropWhile isWhitespace).reverse.dropWhile isWhitespace).reverse

/-- Value of one decimal digit character, as `parseInt` reads it. -/
def charVal (c : Char) : ℕ := c.toNat - 48

/-- `parseInt(digits, 10)` on a string of decimal digit characters. -/
def charsVal (l : List Char) : ℕ := l.foldl (fun acc c => 10 * acc + charVal c) 0

/-- The anchored pattern of `parseTime`'s colon branch,
the regex `(\d1,2):(\d2)(:(\d2))?` with the component groups capturing
one-or-two digits, two digits, and an optional two digits.  An anchored
match exists exactly for the four shapes below (colon tests in the guard). -/
def matchColon (l : List Char) : Option (ℕ × ℕ × Option ℕ) :=
  match l with
  | [a, b, c, d] =>
      if a.isDigit && b == ':' && c.isDigit && d.isDigit then
        some (charVal a, charsVal [c, d], none)
      else none
  | [a, b, c, d, e] =>
      if a.isDigit && b.isDigit && c == ':' && d.isDigit && e.isDigit then
        some (charsVal [a, b], charsVal [d, e], none)
      else none
  | [a, b, c, d, e, f, g] =>
      if a.isDigit && b == ':' && c.isDigit && d.isDigit && e == ':' &&
          f.isDigit && g.isDigit then
        some (charVal a, charsVal [c, d], some (charsVal [f, g]))
      else none
  | [a, b, c, d, e, f, g, i] =>
      if a.isDigit && b.isDigit && c == ':' && d.isDigit && e.isDigit &&
          f == ':' && g.isDigit && i.isDigit then
        some (charsVal [a, b], charsVal [d, e], some (charsVal [g, i]))
      else none
  | _ => none

/-- One optional group of the compact pattern: digits followed by the unit
letter `u` and optional whitespace.  When the group does not match, the
input position is unchanged and the captured value defaults to 0, as in the
source's `hours ? parseInt(hours, 10) : 0`.  The groups are tried in fixed
order with greedy digit runs; since an unmatched group consumes nothing,
this is equivalent to the anchored regex with backtracking. -/
def takeUnit (u : Char) (l : List Char) : ℕ × List Char :=
  let ds := l.takeWhile Char.isDigit
  match l.dropWhile Char.isDigit with
  | c :: rest =>
      if c == u && !ds.isEmpty then (charsVal ds, rest.dropWhile isWhitespace)
      else (0, l)
  | [] => (0, l)

/-- The compact pattern of `parseTime`: optional hour, minute and second
groups, anchored at both ends. -/
def matchCompact (l : List Char) : Option (ℕ × ℕ × ℕ) :=
  let rh := takeUnit 'h' l
  let rm := takeUnit 'm' rh.2
  let rs := takeUnit 's' rm.2
  if rs.2.isEmpty then some (rh.1, rm.1, rs.1) else none

/-- `TimeFormatter.parseTime`: trims, returns 0 for the empty string, then
tries the colon pattern (with range checks on the second component, and on
the third in the three-component form), the compact pattern (no range
checks), and finally a bare run of digits read as seconds. -/
def parseTime (l : List Char) : Except String ℕ :=
  let trimmed := trim l
  if trimmed.isEmpty then Except.ok 0
  else
    match matchColon trimmed with
    | some (first, second, some third) =>
        if 60 ≤ second ∨ 60 ≤ third then
          Except.error "Invalid time format: minutes and seconds must be less than 60"
        else Except.ok ((first * 3600 + second * 60 + third) * 1000)
    | some (first, second, none) =>
        if 60 ≤ second then
          Except.error "Invalid time format: seconds must be less than 60"
        else Except.ok ((first * 60 + second) * 1000)
    | none =>
        match matchCompact trimmed with
        | some (h, m, s) => Except.ok ((h * 3600 + m * 60 + s) * 1000)
        | none =>
            if trimmed.all Char.isDigit then Except.ok (charsVal trimmed * 1000)
            else Except.error "Invalid time format"

end TimeFormatter

namespace TimerEngine

/-- `TimerEngine.formatTime` — the engine's own formatter, which, unlike
`TimeFormatter.formatTime`, has no guard for negative input.  JavaScript
`Math.floor` on a quotient of integers is floor division (`Int.fdiv`) and
the `%` operator truncates toward zero (`Int.tmod`). -/
def formatTime (ms : ℤ) : List Char :=
  let totalSeconds := Int.fdiv ms 1000
  let hours := Int.fdiv totalSeconds 3600
  let minutes := Int.fdiv (Int.tmod totalSeconds 3600) 60
  let seconds := Int.tmod totalSeconds 60
  if 0 < hours then
    pad2Int hours ++ ':' :: pad2Int minutes ++ ':' :: pad2Int seconds
  else
    pad2Int minutes ++ ':' :: pad2Int seconds

end TimerEngine

namespace CountdownTimer

/-- `CountdownTimer.warningThresholds`, in the source's descending order. -/
def warningThresholds : List ℤ := [60000, 30000, 10000, 5000, 3000, 1000]

/-- The payload fields of a warning callback that the claims inspect. -/
structure Warning where
  threshold : ℤ
  isUrgent : Bool
deriving DecidableEq, Repr

/-- The loop condition of `checkWarnings`:
`currentTime <= threshold && !this.warningsTriggered.has(threshold)`. -/
def warnPred (currentTime : ℤ) (triggered : List ℤ) (t : ℤ) : Bool :=
  decide (currentTime ≤ t) && !(decide (t ∈ triggered))

/-- `CountdownTimer.checkWarnings`: fires for the first threshold in the
descending list satisfying `warnPred`, adds it to the triggered set, and
breaks; at most one warning per tick by construction. -/
def checkWarnings (currentTime : ℤ) (triggered : List ℤ) :
    List ℤ × Option Warning :=
  match warningThresholds.find? (warnPred currentTime triggered) with
  | some t => (t :: triggered, some ⟨t, decide (t ≤ 10000)⟩)
  | none => (triggered, none)

/-- Fold `checkWarnings` over the `currentTime` values of a tick sequence,
collecting the fired warnings. -/
def runWarnings : List ℤ → List ℤ → List ℤ × List Warning
  | [], triggered => (triggered, [])
  | ct :: rest, triggered =>
      let r := checkWarnings ct triggered
      let r2 := runWarnings rest r.1
      (r2.1, r.2.toList ++ r2.2)

end CountdownTimer

/-- A `CountdownTimer` wraps the engine and owns the warning-tracking set. -/
structure CDState where
  engine : EngineState
  warningsTriggered : List ℤ
deriving DecidableEq, Repr

namespace CountdownTimer

/-- `CountdownTimer.setDuration`: validates, then `setMode('countdown')`,
`setTargetTime(total)`, clears the warning set (the engine's `reset` event
raised inside `setMode` already clears it through the registered listener,
and the method clears it again explicitly), and returns the total. -/
def setDuration (minutes seconds : ℤ) (cd : CDState) :
    Except String (CDState × ℤ) :=
  if minutes < 0 ∨ seconds < 0 then Except.error "Duration cannot be negative"
  else if 1440 < minutes then Except.error "Duration cannot exceed 24 hours"
  else if 60 ≤ seconds then Except.error "Seconds must be less than 60"
  else
    let totalMilliseconds := (minutes * 60 + seconds) * 1000
    if totalMilliseconds = 0 then Except.error "Duration must be greater than zero"
    else
      let r1 := TimerEngine.setMode Mode.countdown cd.engine
      match TimerEngine.setTargetTime totalMilliseconds r1.1 with
      | Except.error e => Except.error e
      | Except.ok r2 =>
          Except.ok ({ engine := r2.1, warningsTriggered := [] }, totalMilliseconds)

end CountdownTimer

namespace Stopwatch

/-- A `LapRecord` (the `timestamp` and pre-formatted strings are elided). -/
structure Lap where
  lapNumber : ℕ
  lapTime : ℤ
  totalTime : ℤ
deriving DecidableEq, Repr

/-- The `Stopwatch` wrapper's own state. -/
structure SWState where
  lapTimes : List Lap
  milestonesReached : List ℤ
deriving DecidableEq, Repr

/-- `Stopwatch.recordLap`: throws exactly when the engine's `currentTime`
is 0; otherwise appends a lap whose `lapTime` is measured from the previous
lap's `totalTime` (or from 0 when there is none). -/
def recordLap (es : EngineState) (sw : SWState) : Except String (SWState × Lap) :=
  if es.currentTime = 0 then
    Except.error "Cannot record lap time when stopwatch is at zero"
  else
    let previousLapTime :=
      match sw.lapTimes.getLast? with
      | some lap => lap.totalTime
      | none => 0
    let lap : Lap :=
      { lapNumber := sw.lapTimes.length + 1
        lapTime := es.currentTime - previousLapTime
        totalTime := es.currentTime }
    Except.ok ({ sw with lapTimes := sw.lapTimes ++ [lap] }, lap)

/-- `Stopwatch.onReset`, the listener registered for the engine's `reset`
event: clears the lap list and the milestone set unconditionally. -/
def onReset (sw : SWState) : SWState :=
  { sw with lapTimes := [], milestonesReached := [] }

end Stopwatch

/-- `Stopwatch.start`: `engine.setMode('stopwatch')` then `engine.start()`. -/
def stopwatchStart (now : ℤ) (s : EngineState) : EngineState × List Event :=
  let r1 := TimerEngine.setMode Mode.stopwatch s
  let r2 := TimerEngine.start now r1.1
  (r2.1, r1.2 ++ r2.2)

/-- A reachable running countdown state: target 60 s, started at time 0. -/
def runningCountdownDemo : EngineState :=
  runOps [Op.setTargetTime 60000, Op.start 0] TimerEngine.initState

/-- A paused stopwatch holding 12345 ms of elapsed time. -/
def pausedStopwatchDemo : EngineState :=
  { TimerEngine.initState with
      mode := Mode.stopwatch, isPaused := true, currentTime := 12345 }

/-- A running stopwatch holding 12345 ms of elapsed time. -/
def runningStopwatchDemo : EngineState :=
  { TimerEngine.initState with
      mode := Mode.stopwatch, isRunning := true, currentTime := 12345 }

/-- The countdown state `setDuration(5, 0)` produces from the initial
engine state. -/
def cdAfterDemo : CDState :=
  { engine :=
      { mode := Mode.countdown, isRunning := false, isPaused := false,
        currentTime := 300000, targetTime := 300000, startTime := 0,
        lastUpdateTime := 0, animationFrameId := false }
    warningsTriggered := [] }

end Timer

namespace Timer

/-! ### Helper lemmas -/

theorem applyOp_flagsOk (op : Op) (s : EngineState) (h : flagsOk s) :
    flagsOk (applyOp op s).1 := by
  unfold flagsOk at *
  cases op <;>
    simp only [applyOp, TimerEngine.setMode, TimerEngine.setTargetTime, TimerEngine.start,
      TimerEngine.pause, TimerEngine.resume, TimerEngine.reset, TimerEngine.update,
      TimerEngine.destroy] <;>
    (try split_ifs) <;> simp_all

theorem runOps_flagsOk (ops : List Op) (s : EngineState) (h : flagsOk s) :
    flagsOk (runOps ops s) := by
  induction ops generalizing s with
  | nil => exact h
  | cons op rest ih => exact ih _ (applyOp_flagsOk op s h)

theorem update_mono (now : ℤ) (s : EngineState)
    (hm : s.mode = Mode.countdown) (hc : 0 ≤ s.currentTime) :
    (TimerEngine.update now s).1.currentTime ≤ s.currentTime ∧
    0 ≤ (TimerEngine.update now s).1.currentTime := by
  simp only [TimerEngine.update, UPDATE_INTERVAL]
  split_ifs <;> simp_all <;> omega

theorem update_inv (now : ℤ) (s : EngineState) (n : ℕ) (h : CountdownRunInv s n) :
    CountdownRunInv (TimerEngine.update now s).1
      (n + completes (TimerEngine.update now s).2) := by
  obtain ⟨hm, hp, hcase⟩ := h
  rcases hcase with ⟨hr, hc, hn⟩ | ⟨hr, hc, hf, hn⟩
  · simp only [TimerEngine.update, UPDATE_INTERVAL, hr, hp, hm, Bool.not_true, Bool.or_self,
      Bool.false_or, if_true, if_false, reduceIte]
    split_ifs with h1 h2 <;>
      simp_all [CountdownRunInv, completes, UPDATE_INTERVAL]
  · simp [TimerEngine.update, hr, CountdownRunInv, completes, hm, hp, hc, hf, hn]

theorem runUpdates_inv (nows : List ℤ) (s : EngineState) (n : ℕ)
    (h : CountdownRunInv s n) :
    CountdownRunInv (runUpdates nows s).1 (n + completes (runUpdates nows s).2) := by
  induction nows generalizing s n with
  | nil => simpa [runUpdates, completes]
  | cons now rest ih =>
      simp only [runUpdates]
      have h2 := ih (TimerEngine.update now s).1 _ (update_inv now s n h)
      simpa [completes, List.count_append, Nat.add_assoc] using h2

theorem find?_first {α : Type} (p : α → Bool) :
    ∀ (l : List α) (a : α), l.find? p = some a →
      p a = true ∧ ∃ l1 l2, l = l1 ++ a :: l2 ∧ ∀ x ∈ l1, p x = false := by
  intro l
  induction l with
  | nil => simp [List.find?]
  | cons b t ih =>
      intro a h
      by_cases hb : p b
      · rw [List.find?_cons_of_pos _ hb] at h
        cases h
        exact ⟨hb, [], t, by simp, by simp⟩
      · rw [List.find?_cons_of_neg _ (by simpa using hb)] at h
        obtain ⟨hp, l1, l2, heq, hall⟩ := ih a h
        refine ⟨hp, b :: l1, l2, by simp [heq], ?_⟩
        intro x hx
        rcases List.mem_cons.mp hx with rfl | hx'
        · simpa using hb
        · exact hall x hx'

namespace CountdownTimer

theorem runWarnings_inv (ticks : List ℤ) (triggered : List ℤ) :
    (∀ t ∈ triggered, t ∈ (runWarnings ticks triggered).1) ∧
    (∀ w ∈ (runWarnings ticks triggered).2,
        w.threshold ∉ triggered ∧ w.threshold ∈ (runWarnings ticks triggered).1) ∧
    List.Pairwise (fun a b => a.threshold ≠ b.threshold)
      (runWarnings ticks triggered).2 := by
  induction ticks generalizing triggered with
  | nil => simp [runWarnings]
  | cons ct rest ih =>
      simp only [runWarnings]
      unfold checkWarnings
      cases hf : warningThresholds.find? (warnPred ct triggered) with
      | none =>
          simpa using ih triggered
      | some t =>
          have hpred := (find?_first _ _ _ hf).1
          have ht : t ∉ triggered := by
            simp only [warnPred, Bool.and_eq_true, decide_eq_true_eq, Bool.not_eq_true',
              decide_eq_false_iff_not] at hpred
            exact hpred.2
          obtain ⟨ih1, ih2, ih3⟩ := ih (t :: triggered)
          refine ⟨?_, ?_, ?_⟩
          · intro x hx
            exact ih1 x (List.mem_cons_of_mem _ hx)
          · intro w hw
            simp only [Option.toList_some, List.cons_append, List.nil_append,
              List.mem_cons] at hw
            rcases hw with rfl | hw'
            · exact ⟨ht, ih1 t (List.mem_cons_self _ _)⟩
            · obtain ⟨hnotin, hin⟩ := ih2 w hw'
              exact ⟨fun hc => hnotin (List.mem_cons_of_mem _ hc), hin⟩
          · simp only [Option.toList_some, List.cons_append, List.nil_append]
            refine List.Pairwise.cons ?_ ih3
            intro w hw
            obtain ⟨hnotin, _⟩ := ih2 w hw
            intro hcontra
            exact hnotin (by rw [← hcontra]; exact List.mem_cons_self _ _)

theorem runWarnings_append (l1 l2 : List ℤ) (trig : List ℤ) :
    runWarnings (l1 ++ l2) trig =
      ((runWarnings l2 (runWarnings l1 trig).1).1,
       (runWarnings l1 trig).2 ++ (runWarnings l2 (runWarnings l1 trig).1).2) := by
  induction l1 generalizing trig with
  | nil => simp [runWarnings]
  | cons ct rest ih => simp [runWarnings, ih]

end CountdownTimer

theorem natToChars_lt10 (n : ℕ) (h : n < 10) : natToChars n = [Nat.digitChar n] := by
  unfold natToChars
  rw [natToCharsAux]
  simp [h]

theorem natToChars_two_digits (n : ℕ) (h10 : 10 ≤ n) (h100 : n < 100) :
    natToChars n = [Nat.digitChar (n / 10), Nat.digitChar (n % 10)] := by
  unfold natToChars
  rw [natToCharsAux]
  rw [if_neg (by omega)]
  obtain ⟨m, rfl⟩ : ∃ m, n = m + 1 := ⟨n - 1, by omega⟩
  rw [natToCharsAux]
  rw [if_pos (by omega)]
  simp

theorem pad2_eq (n : ℕ) (h : n < 100) :
    pad2 n = [Nat.digitChar (n / 10), Nat.digitChar (n % 10)] := by
  by_cases h10 : n < 10
  · unfold pad2 padStart
    rw [natToChars_lt10 n h10]
    have h1 : n / 10 = 0 := by omega
    have h2 : n % 10 = n := by omega
    simp [h1, h2, List.replicate, Nat.digitChar]
  · unfold pad2 padStart
    rw [natToChars_two_digits n (by omega) h]
    simp

theorem digitChar_isDigit : ∀ d : ℕ, d < 10 → (Nat.digitChar d).isDigit = true := by decide

theorem digitChar_val : ∀ d : ℕ, d < 10 → TimeFormatter.charVal (Nat.digitChar d) = d := by
  decide

theorem digitChar_not_ws : ∀ d : ℕ, d < 10 →
    TimeFormatter.isWhitespace (Nat.digitChar d) = false := by decide

theorem charsVal_pair (a b : Char) :
    TimeFormatter.charsVal [a, b] =
      10 * TimeFormatter.charVal a + TimeFormatter.charVal b := by
  simp [TimeFormatter.charsVal, List.foldl]

theorem dropWhile_eq_self {p : Char → Bool} {l : List Char}
    (h : ∀ c ∈ l, p c = false) : l.dropWhile p = l := by
  cases l with
  | nil => rfl
  | cons a t => simp [List.dropWhile_cons, h a (by simp)]

theorem trim_eq_self {l : List Char}
    (h : ∀ c ∈ l, TimeFormatter.isWhitespace c = false) :
    TimeFormatter.trim l = l := by
  unfold TimeFormatter.trim
  rw [dropWhile_eq_self h,
    dropWhile_eq_self (fun c hc => h c (List.mem_reverse.mp hc)),
    List.reverse_reverse]

theorem charsVal_digits (n : ℕ) (h : n < 100) :
    TimeFormatter.charsVal [Nat.digitChar (n / 10), Nat.digitChar (n % 10)] = n := by
  rw [charsVal_pair, digitChar_val _ (by omega), digitChar_val _ (by omega)]
  omega

theorem parse_format_mmss (m s : ℕ) (hm : m < 60) (hs : s < 60) :
    TimeFormatter.parseTime (pad2 m ++ ':' :: pad2 s) =
      Except.ok ((m * 60 + s) * 1000) := by
  rw [pad2_eq m (by omega), pad2_eq s (by omega)]
  simp only [List.cons_append, List.nil_append]
  have hws : ∀ c ∈ [Nat.digitChar (m / 10), Nat.digitChar (m % 10), ':',
      Nat.digitChar (s / 10), Nat.digitChar (s % 10)],
      TimeFormatter.isWhitespace c = false := by
    intro c hc
    simp only [List.mem_cons, List.not_mem_nil, or_false] at hc
    rcases hc with rfl | rfl | rfl | rfl | rfl
    · exact digitChar_not_ws _ (by omega)
    · exact digitChar_not_ws _ (by omega)
    · decide
    · exact digitChar_not_ws _ (by omega)
    · exact digitChar_not_ws _ (by omega)
  have hmc : TimeFormatter.matchColon [Nat.digitChar (m / 10), Nat.digitChar (m % 10),
      ':', Nat.digitChar (s / 10), Nat.digitChar (s % 10)] = some (m, s, none) := by
    simp only [TimeFormatter.matchColon]
    rw [if_pos]
    · rw [charsVal_digits m (by omega), charsVal_digits s (by omega)]
    · simp [digitChar_isDigit _ (show m / 10 < 10 by omega),
        digitChar_isDigit _ (show m % 10 < 10 by omega),
        digitChar_isDigit _ (show s / 10 < 10 by omega),
        digitChar_isDigit _ (show s % 10 < 10 by omega)]
  simp only [TimeFormatter.parseTime, trim_eq_self hws, hmc, List.isEmpty_cons,
    Bool.false_eq_true, if_false]
  rw [if_neg (by omega)]

theorem parse_format_hhmmss (h m s : ℕ) (hh : h < 100) (hm : m < 60) (hs : s < 60) :
    TimeFormatter.parseTime (pad2 h ++ ':' :: pad2 m ++ ':' :: pad2 s) =
      Except.ok ((h * 3600 + m * 60 + s) * 1000) := by
  rw [pad2_eq h (by omega), pad2_eq m (by omega), pad2_eq s (by omega)]
  simp only [List.cons_append, List.nil_append]
  have hws : ∀ c ∈ [Nat.digitChar (h / 10), Nat.digitChar (h % 10), ':',
      Nat.digitChar (m / 10), Nat.digitChar (m % 10), ':',
      Nat.digitChar (s / 10), Nat.digitChar (s % 10)],
      TimeFormatter.isWhitespace c = false := by
    intro c hc
    simp only [List.mem_cons, List.not_mem_nil, or_false] at hc
    rcases hc with rfl | rfl | rfl | rfl | rfl | rfl | rfl | rfl
    · exact digitChar_not_ws _ (by omega)
    · exact digitChar_not_ws _ (by omega)
    · decide
    · exact digitChar_not_ws _ (by omega)
    · exact digitChar_not_ws _ (by omega)
    · decide
    · exact digitChar_not_ws _ (by omega)
    · exact digitChar_not_ws _ (by omega)
  have hmc : TimeFormatter.matchColon [Nat.digitChar (h / 10), Nat.digitChar (h % 10),
      ':', Nat.digitChar (m / 10), Nat.digitChar (m % 10), ':',
      Nat.digitChar (s / 10), Nat.digitChar (s % 10)] = some (h, m, some s) := by
    simp only [TimeFormatter.matchColon]
    rw [if_pos]
    · rw [charsVal_digits h (by omega), charsVal_digits m (by omega),
        charsVal_digits s (by omega)]
    · simp [digitChar_isDigit _ (show h / 10 < 10 by omega),
        digitChar_isDigit _ (show h % 10 < 10 by omega),
        digitChar_isDigit _ (show m / 10 < 10 by omega),
        digitChar_isDigit _ (show m % 10 < 10 by omega),
        digitChar_isDigit _ (show s / 10 < 10 by omega),
        digitChar_isDigit _ (show s % 10 < 10 by omega)]
  simp only [TimeFormatter.parseTime, trim_eq_self hws, hmc, List.isEmpty_cons,
    Bool.false_eq_true, if_false]
  rw [if_neg (by omega)]

end Timer

namespace Timer

/-! ### Claim theorems -/

/-- Claim C1: for every countdown run (mode countdown, positive
`currentTime`, running, not paused) and every sequence of progression
callbacks, `currentTime` is non-increasing at each applied update and stays
non-negative; and if the run reaches `currentTime = 0` then it is clamped at
exactly 0, `isRunning` is false, no further callback is scheduled, and the
`complete` event was emitted exactly once; in any case `complete` is emitted
at most once. -/
theorem countdown_run_correct (s : EngineState) (nows : List ℤ)
    (hm : s.mode = Mode.countdown) (hr : s.isRunning = true)
    (hp : s.isPaused = false) (hc : 0 < s.currentTime) :
    (∀ pre now rest, nows = pre ++ now :: rest →
        (TimerEngine.update now (runUpdates pre s).1).1.currentTime ≤
            (runUpdates pre s).1.currentTime ∧
        0 ≤ (TimerEngine.update now (runUpdates pre s).1).1.currentTime) ∧
    completes (runUpdates nows s).2 ≤ 1 ∧
    ((runUpdates nows s).1.currentTime = 0 →
        (runUpdates nows s).1.isRunning = false ∧
        (runUpdates nows s).1.animationFrameId = false ∧
        completes (runUpdates nows s).2 = 1) := by
  have h0 : CountdownRunInv s 0 := ⟨hm, hp, Or.inl ⟨hr, hc, rfl⟩⟩
  refine ⟨?_, ?_, ?_⟩
  · intro pre now rest _
    obtain ⟨hm', _, hcase⟩ := runUpdates_inv pre s 0 h0
    have hge : 0 ≤ (runUpdates pre s).1.currentTime := by
      rcases hcase with ⟨_, hgt, _⟩ | ⟨_, heq, _⟩ <;> omega
    exact update_mono now _ hm' hge
  · rcases (runUpdates_inv nows s 0 h0).2.2 with ⟨_, _, hn⟩ | ⟨_, _, _, hn⟩ <;> omega
  · intro hz
    rcases (runUpdates_inv nows s 0 h0).2.2 with ⟨_, hgt, _⟩ | ⟨h1, _, h3, hn⟩
    · omega
    · exact ⟨h1, h3, by omega⟩

/-- Witness for C1 at a reachable running countdown state and the concrete
callback times 200 and 100000 (the second reaches 0). -/
theorem countdown_run_correct_witness :
    (∀ pre now rest, ([200, 100000] : List ℤ) = pre ++ now :: rest →
        (TimerEngine.update now (runUpdates pre runningCountdownDemo).1).1.currentTime ≤
            (runUpdates pre runningCountdownDemo).1.currentTime ∧
        0 ≤ (TimerEngine.update now (runUpdates pre runningCountdownDemo).1).1.currentTime) ∧
    completes (runUpdates [200, 100000] runningCountdownDemo).2 ≤ 1 ∧
    ((runUpdates [200, 100000] runningCountdownDemo).1.currentTime = 0 →
        (runUpdates [200, 100000] runningCountdownDemo).1.isRunning = false ∧
        (runUpdates [200, 100000] runningCountdownDemo).1.animationFrameId = false ∧
        completes (runUpdates [200, 100000] runningCountdownDemo).2 = 1) :=
  countdown_run_correct runningCountdownDemo [200, 100000]
    (by decide) (by decide) (by decide) (by decide)

/-- Claim C2: after any sequence of engine operations from the initial
state, `isRunning` and `isPaused` are never both true. -/
theorem engine_flags_never_both (ops : List Op) :
    ¬((runOps ops TimerEngine.initState).isRunning = true ∧
      (runOps ops TimerEngine.initState).isPaused = true) :=
  runOps_flagsOk ops TimerEngine.initState (by simp [TimerEngine.initState, flagsOk])

open CountdownTimer in
/-- Claim C3: over any countdown run (tick sequence starting from an empty
triggered set), no two fired warnings share a threshold (each of the six
thresholds fires at most once); each tick appends the at-most-one warning
chosen by `checkWarnings`; a fired warning is for the first threshold in the
descending list with `currentTime ≤ threshold` not yet triggered, with
`isUrgent` exactly when the threshold is at most 10000; and no warning fires
when no threshold qualifies. -/
theorem warnings_single_fire (ticks : List ℤ) :
    List.Pairwise (fun a b => a.threshold ≠ b.threshold) (runWarnings ticks []).2 ∧
    (∀ pre ct rest, ticks = pre ++ ct :: rest →
        (runWarnings (pre ++ [ct]) []).2 =
          (runWarnings pre []).2 ++
            (checkWarnings ct (runWarnings pre []).1).2.toList) ∧
    (∀ ct trig w, (checkWarnings ct trig).2 = some w →
        ct ≤ w.threshold ∧ w.threshold ∉ trig ∧
        w.isUrgent = decide (w.threshold ≤ 10000) ∧
        ∃ l1 l2, warningThresholds = l1 ++ w.threshold :: l2 ∧
          ∀ t ∈ l1, ¬(ct ≤ t ∧ t ∉ trig)) ∧
    (∀ ct trig, (checkWarnings ct trig).2 = none →
        ∀ t ∈ warningThresholds, ¬(ct ≤ t ∧ t ∉ trig)) := by
  refine ⟨(runWarnings_inv ticks []).2.2, ?_, ?_, ?_⟩
  · intro pre ct rest _
    rw [runWarnings_append pre [ct] []]
    simp [runWarnings]
  · intro ct trig w h
    unfold checkWarnings at h
    cases hf : warningThresholds.find? (warnPred ct trig) with
    | none => simp [hf] at h
    | some t =>
        simp only [hf] at h
        cases h
        obtain ⟨hpred, l1, l2, heq, hall⟩ := find?_first _ _ _ hf
        simp only [warnPred, Bool.and_eq_true, decide_eq_true_eq, Bool.not_eq_true',
          decide_eq_false_iff_not] at hpred
        refine ⟨hpred.1, hpred.2, rfl, l1, l2, heq, ?_⟩
        intro x hx hcontra
        have hfalse := hall x hx
        simp only [warnPred, Bool.and_eq_false_iff, decide_eq_false_iff_not,
          Bool.not_eq_false, decide_eq_true_eq] at hfalse
        rcases hcontra with ⟨hle, hnot⟩
        rcases hfalse with h1 | h2
        · exact h1 hle
        · exact hnot (by simpa using h2)
  · intro ct trig h t htmem hcontra
    unfold checkWarnings at h
    cases hf : warningThresholds.find? (warnPred ct trig) with
    | some t' => simp [hf] at h
    | none =>
        have hfalse := List.find?_eq_none.mp hf t htmem
        simp only [warnPred, Bool.and_eq_true, decide_eq_true_eq, Bool.not_eq_true',
          decide_eq_false_iff_not, Bool.and_eq_false_iff, Bool.not_eq_false] at hfalse
        exact hfalse ⟨hcontra.1, hcontra.2⟩

open CountdownTimer in
/-- Witness for C3: a concrete two-tick run, its step decomposition, and the
warning fired at `currentTime = 9000` from an empty set (the first
qualifying threshold is 60000, not urgent). -/
theorem warnings_single_fire_witness :
    List.Pairwise (fun a b => a.threshold ≠ b.threshold)
      (runWarnings [50000, 40000] []).2 ∧
    (runWarnings ([50000] ++ [40000]) []).2 =
      (runWarnings [50000] []).2 ++
        (checkWarnings 40000 (runWarnings [50000] []).1).2.toList ∧
    ((9000 : ℤ) ≤ (60000 : ℤ) ∧ (60000 : ℤ) ∉ ([] : List ℤ) ∧
      false = decide ((60000 : ℤ) ≤ 10000) ∧
      ∃ l1 l2, warningThresholds = l1 ++ (60000 : ℤ) :: l2 ∧
        ∀ t ∈ l1, ¬((9000 : ℤ) ≤ t ∧ t ∉ ([] : List ℤ))) := by
  refine ⟨(warnings_single_fire [50000, 40000]).1, ?_, ?_⟩
  · exact (warnings_single_fire [50000, 40000]).2.1 [50000] 40000 [] rfl
  · exact (warnings_single_fire []).2.2.1 9000 [] ⟨60000, false⟩ (by decide)

/-- Claim C4: for every whole-second millisecond value `1000 * k` up to 24
hours, parsing the formatted string returns the value (formatter with
default options). -/
theorem format_parse_roundtrip (k : ℕ) (hk : k ≤ 86400) :
    TimeFormatter.parseTime (TimeFormatter.formatTime ((1000 * k : ℕ) : ℤ)) =
      Except.ok (1000 * k) := by
  have hms : ¬(((1000 * k : ℕ) : ℤ) < 0) := by
    simp [Int.natCast_nonneg]
  have htn : ((1000 * k : ℕ) : ℤ).toNat = 1000 * k := Int.toNat_natCast _
  have e1 : 1000 * k / 1000 = k := by omega
  simp only [TimeFormatter.formatTime, if_neg hms, htn, e1]
  by_cases hh : 0 < k / 3600
  · rw [if_pos hh, parse_format_hhmmss (k / 3600) (k % 3600 / 60) (k % 60)
      (by omega) (by omega) (by omega)]
    congr 1
    omega
  · rw [if_neg hh, parse_format_mmss (k % 3600 / 60) (k % 60) (by omega) (by omega)]
    congr 1
    omega

/-- Witness for C4 at 3661 seconds (formats as `"01:01:01"`). -/
theorem format_parse_roundtrip_witness :
    TimeFormatter.parseTime (TimeFormatter.formatTime ((1000 * 3661 : ℕ) : ℤ)) =
      Except.ok (1000 * 3661) :=
  format_parse_roundtrip 3661 (by omega)

open CountdownTimer in
/-- Claim C5 (amended): `setDuration` fails exactly when minutes or seconds
is negative, or minutes > 1440, or seconds ≥ 60, or the total is exactly
zero, or — the case the claim misses — the total exceeds the 24-hour
maximum (reachable with minutes = 1440 and seconds ≥ 1, where the engine's
`setTargetTime` throws); on success it puts the engine in countdown mode
with the total as target and current time, clears the warning set, and
returns the total in milliseconds. -/
theorem setDuration_spec (minutes seconds : ℤ) (cd : CDState) :
    ((setDuration minutes seconds cd).isOk = false ↔
      minutes < 0 ∨ seconds < 0 ∨ 1440 < minutes ∨ 60 ≤ seconds ∨
        (minutes * 60 + seconds) * 1000 = 0 ∨
        MAX_DURATION < (minutes * 60 + seconds) * 1000) ∧
    (∀ cd' r, setDuration minutes seconds cd = Except.ok (cd', r) →
        r = (minutes * 60 + seconds) * 1000 ∧
        cd'.engine.mode = Mode.countdown ∧
        cd'.engine.targetTime = r ∧
        cd'.engine.currentTime = r ∧
        cd'.engine.isRunning = false ∧
        cd'.engine.isPaused = false ∧
        cd'.warningsTriggered = []) := by
  simp only [setDuration, TimerEngine.setMode, TimerEngine.pause, TimerEngine.reset,
    TimerEngine.setTargetTime, MAX_DURATION]
  split_ifs <;>
    simp_all [Except.isOk, Except.toBool] <;>
    omega

open CountdownTimer in
/-- Counterexample to C5 as stated: `setDuration(1440, 1)` satisfies none of
the claim's failure conditions, yet it fails (the total, 86401000 ms, is
over the 24-hour cap and `setTargetTime` throws). -/
theorem setDuration_cex :
    (setDuration 1440 1 ⟨TimerEngine.initState, []⟩).isOk = false ∧
    ¬((1440 : ℤ) < 0 ∨ (1 : ℤ) < 0 ∨ 1440 < (1440 : ℤ) ∨ 60 ≤ (1 : ℤ) ∨
        ((1440 : ℤ) * 60 + 1) * 1000 = 0) := by decide

open CountdownTimer in
/-- Witness for C5: the success branch at `setDuration(5, 0)`. -/
theorem setDuration_spec_witness :
    (300000 : ℤ) = ((5 : ℤ) * 60 + 0) * 1000 ∧
    cdAfterDemo.engine.mode = Mode.countdown ∧
    cdAfterDemo.engine.targetTime = 300000 ∧
    cdAfterDemo.engine.currentTime = 300000 ∧
    cdAfterDemo.engine.isRunning = false ∧
    cdAfterDemo.engine.isPaused = false ∧
    cdAfterDemo.warningsTriggered = [] :=
  (setDuration_spec 5 0 ⟨TimerEngine.initState, []⟩).2 cdAfterDemo 300000 (by rfl)

open TimeFormatter in
/-- Claim C6 (amended): `parseTime` fails exactly when the trimmed input
matches the colon pattern with an out-of-range component — seconds ≥ 60 in
`MM:SS`, minutes or seconds ≥ 60 in `HH:MM:SS`; the minutes of `MM:SS` and
all compact-pattern components are not range-checked — or when it is
nonempty and matches none of the colon, compact, and bare-digits patterns;
the empty (or all-whitespace) string parses to 0. -/
theorem parseTime_spec (l : List Char) :
    ((parseTime l).isOk = false ↔
      (∃ a b c, matchColon (trim l) = some (a, b, some c) ∧ (60 ≤ b ∨ 60 ≤ c)) ∨
      (∃ a b, matchColon (trim l) = some (a, b, none) ∧ 60 ≤ b) ∨
      ((trim l).isEmpty = false ∧ matchColon (trim l) = none ∧
        matchCompact (trim l) = none ∧ (trim l).all Char.isDigit = false)) ∧
    ((trim l).isEmpty = true → parseTime l = Except.ok 0) := by
  constructor
  · unfold parseTime
    cases he : (trim l).isEmpty with
    | true =>
        have hnil : trim l = [] := by
          cases h : trim l with
          | nil => rfl
          | cons a t => rw [h] at he; simp at he
        simp [hnil, matchColon, matchCompact, takeUnit, Except.isOk, Except.toBool]
    | false =>
        cases hc : matchColon (trim l) with
        | some v =>
            obtain ⟨a, b, c⟩ := v
            cases c with
            | some third =>
                simp only [he, Bool.false_eq_true, if_false, hc]
                split_ifs with hcond
                · refine iff_of_true rfl (Or.inl ⟨a, b, third, rfl, hcond⟩)
                · refine iff_of_false (by simp [Except.isOk, Except.toBool]) ?_
                  rintro (⟨a', b', c', heq, hcond'⟩ | ⟨a', b', heq, hcond'⟩ |
                    ⟨_, heq, _, _⟩) <;> simp_all <;> omega
            | none =>
                simp only [he, Bool.false_eq_true, if_false, hc]
                split_ifs with hcond
                · refine iff_of_true rfl (Or.inr (Or.inl ⟨a, b, rfl, hcond⟩))
                · refine iff_of_false (by simp [Except.isOk, Except.toBool]) ?_
                  rintro (⟨a', b', c', heq, hcond'⟩ | ⟨a', b', heq, hcond'⟩ |
                    ⟨_, heq, _, _⟩) <;> simp_all <;> omega
        | none =>
            cases hcp : matchCompact (trim l) with
            | some v =>
                obtain ⟨h', m', s'⟩ := v
                simp only [he, Bool.false_eq_true, if_false, hc, hcp]
                refine iff_of_false (by simp [Except.isOk, Except.toBool]) ?_
                rintro (⟨a', b', c', heq, hcond'⟩ | ⟨a', b', heq, hcond'⟩ |
                  ⟨_, _, heq, _⟩) <;> simp_all
            | none =>
                cases hd : (trim l).all Char.isDigit with
                | true =>
                    simp only [he, Bool.false_eq_true, if_false, hc, hcp, hd, if_true]
                    refine iff_of_false (by simp [Except.isOk, Except.toBool]) ?_
                    rintro (⟨a', b', c', heq, hcond'⟩ | ⟨a', b', heq, hcond'⟩ |
                      ⟨_, _, _, heq⟩) <;> simp_all
                | false =>
                    simp only [he, Bool.false_eq_true, if_false, hc, hcp, hd]
                    exact iff_of_true rfl (Or.inr (Or.inr (by simp_all)))
  · intro he
    unfold parseTime
    simp [he]

open TimeFormatter in
/-- Counterexample to C6 as stated: `"61:05"` has a minutes component of
61 ≥ 60, yet `parseTime` succeeds (the `MM:SS` branch only range-checks
seconds). -/
theorem parseTime_cex :
    parseTime ['6', '1', ':', '0', '5'] = Except.ok 3665000 ∧ 60 ≤ 61 :=
  ⟨rfl, by omega⟩

open TimeFormatter in
/-- Witness for C6: the empty string parses to 0. -/
theorem parseTime_spec_witness :
    parseTime [] = Except.ok 0 :=
  (parseTime_spec []).2 (by decide)

/-- Claim C7 (amended): when the engine is running, `setMode` emits exactly
the sequence pause, reset, modeChanged — the `reset` event precedes
`modeChanged`, not the other way around as the claim states — with no event
fired twice. -/
theorem setMode_event_order (s : EngineState) (m : Mode)
    (hr : s.isRunning = true) (hp : s.isPaused = false) :
    (TimerEngine.setMode m s).2 = [Event.pause, Event.reset, Event.modeChanged] := by
  unfold TimerEngine.setMode TimerEngine.pause TimerEngine.reset
  simp [hr, hp]

/-- Witness for C7 at a reachable running countdown state. -/
theorem setMode_event_order_witness :
    (TimerEngine.setMode Mode.stopwatch
        (runOps [Op.setTargetTime 60000, Op.start 0] TimerEngine.initState)).2 =
      [Event.pause, Event.reset, Event.modeChanged] :=
  setMode_event_order _ Mode.stopwatch (by decide) (by decide)

/-- Counterexample to C7 as stated: on a concrete running engine, `setMode`
emits pause, reset, modeChanged, which is not the claimed order pause,
modeChanged, reset. -/
theorem setMode_event_order_cex :
    (TimerEngine.setMode Mode.stopwatch
        (runOps [Op.setTargetTime 60000, Op.start 0] TimerEngine.initState)).2 =
      [Event.pause, Event.reset, Event.modeChanged] ∧
    (TimerEngine.setMode Mode.stopwatch
        (runOps [Op.setTargetTime 60000, Op.start 0] TimerEngine.initState)).2 ≠
      [Event.pause, Event.modeChanged, Event.reset] := by decide

open Stopwatch in
/-- Claim C8 (amended): `recordLap` succeeds exactly when the engine's
`currentTime` is nonzero — it does not require the engine to be running, so
a paused stopwatch with elapsed time still records laps — and on success
appends exactly one lap with the current total; the engine's `reset` event
always empties the lap list. -/
theorem recordLap_spec (es : EngineState) (sw : SWState) :
    ((recordLap es sw).isOk = true ↔ es.currentTime ≠ 0) ∧
    (∀ sw' lap, recordLap es sw = Except.ok (sw', lap) →
        sw'.lapTimes = sw.lapTimes ++ [lap] ∧
        lap.totalTime = es.currentTime ∧
        lap.lapNumber = sw.lapTimes.length + 1) ∧
    (onReset sw).lapTimes = [] := by
  unfold recordLap onReset
  split_ifs <;> simp_all [Except.isOk, Except.toBool]

open Stopwatch in
/-- Counterexample to C8 as stated: the engine is not running (paused
stopwatch at 12345 ms), yet `recordLap` appends a lap record. -/
theorem recordLap_cex :
    pausedStopwatchDemo.isRunning = false ∧
    recordLap pausedStopwatchDemo ⟨[], []⟩ =
      Except.ok (⟨[⟨1, 12345, 12345⟩], []⟩, ⟨1, 12345, 12345⟩) :=
  ⟨rfl, rfl⟩

open Stopwatch in
/-- Witness for C8 on a running stopwatch at 12345 ms. -/
theorem recordLap_spec_witness :
    (recordLap runningStopwatchDemo ⟨[], []⟩).isOk = true ∧
    (⟨[⟨1, 12345, 12345⟩], []⟩ : SWState).lapTimes =
      ([] : List Lap) ++ [⟨1, 12345, 12345⟩] ∧
    (onReset ⟨[⟨1, 12345, 12345⟩], []⟩).lapTimes = [] :=
  ⟨(recordLap_spec runningStopwatchDemo ⟨[], []⟩).1.mpr (by decide),
   ((recordLap_spec runningStopwatchDemo ⟨[], []⟩).2.1
      ⟨[⟨1, 12345, 12345⟩], []⟩ ⟨1, 12345, 12345⟩ (by rfl)).1,
   (recordLap_spec runningStopwatchDemo ⟨[], []⟩).2.2⟩

/-- Claim C9 (amended): `TimeFormatter.formatTime` returns `"00:00"` for
every negative input; this does not extend to `TimerEngine.formatTime`,
which has no such guard (see the counterexample). -/
theorem formatTime_negative (ms : ℤ) (h : ms < 0) :
    TimeFormatter.formatTime ms = ['0', '0', ':', '0', '0'] := by
  unfold TimeFormatter.formatTime
  rw [if_pos h]

/-- Witness for C9 at −500 ms. -/
theorem formatTime_negative_witness :
    TimeFormatter.formatTime (-500) = ['0', '0', ':', '0', '0'] :=
  formatTime_negative (-500) (by decide)

/-- Counterexample to C9 as stated: `TimerEngine.formatTime(-500)` returns
`"-1:-1"`, not `"00:00"` — the engine's own formatter does not share
`TimeFormatter`'s negative-input guard. -/
theorem engine_formatTime_cex :
    TimerEngine.formatTime (-500) = ['-', '1', ':', '-', '1'] ∧
    TimerEngine.formatTime (-500) ≠ ['0', '0', ':', '0', '0'] := by decide

/-- Claim C10: `setMode(m)` with `m` equal to the current mode still
performs a full reset (current time back to the target for countdown, to 0
for stopwatch, both flags cleared); consequently `Stopwatch.start()` on a
paused stopwatch holding nonzero elapsed time discards the elapsed time and
restarts running from `currentTime = 0`. -/
theorem setMode_same_mode_resets (s : EngineState) (now : ℤ) (m : Mode) :
    (s.mode = m →
      (TimerEngine.setMode m s).1.currentTime =
          (if m = Mode.countdown then s.targetTime else 0) ∧
      (TimerEngine.setMode m s).1.isRunning = false ∧
      (TimerEngine.setMode m s).1.isPaused = false) ∧
    (s.mode = Mode.stopwatch → s.isPaused = true → s.currentTime ≠ 0 →
      (stopwatchStart now s).1.currentTime = 0 ∧
      (stopwatchStart now s).1.isRunning = true) := by
  constructor
  · intro _
    unfold TimerEngine.setMode TimerEngine.pause TimerEngine.reset
    split_ifs <;> simp
  · intro _ _ _
    unfold stopwatchStart TimerEngine.setMode TimerEngine.pause TimerEngine.reset
      TimerEngine.start
    split_ifs <;> simp_all

/-- Witness for C10 on a paused stopwatch holding 12345 ms. -/
theorem setMode_same_mode_resets_witness :
    (TimerEngine.setMode Mode.stopwatch pausedStopwatchDemo).1.currentTime = 0 ∧
    (TimerEngine.setMode Mode.stopwatch pausedStopwatchDemo).1.isRunning = false ∧
    (TimerEngine.setMode Mode.stopwatch pausedStopwatchDemo).1.isPaused = false ∧
    (stopwatchStart 0 pausedStopwatchDemo).1.currentTime = 0 ∧
    (stopwatchStart 0 pausedStopwatchDemo).1.isRunning = true := by
  have h := setMode_same_mode_resets pausedStopwatchDemo 0 Mode.stopwatch
  have h1 := h.1 (by decide)
  have h2 := h.2 (by decide) (by decide) (by decide)
  exact ⟨by simpa using h1.1, h1.2.1, h1.2.2, h2.1, h2.2⟩

end Timer
